import Mathlib

/-!
Verification of the train-ticket scanning pipeline
(`src/scripts/ticket_parsers/identify_ticket_details.py` and
`src/scripts/ticket_parsers/trainline_ticket_digital_config.py`).

The Python code is shallowly embedded: pure computations become Lean
functions, the external collaborators (image codec, OCR engine, QR
detector, regular-expression engine, clock) become explicit oracle
parameters, and the per-scan mutable dictionaries become association
lists threaded through the pipeline.  All string manipulation is done
over `List Char`, matching Python string semantics, which index by
code point.
-/

namespace TicketScan

/-! ## Python-style string primitives -/

/-- Python `str.lower()` restricted to ASCII letters, which is all the
source ever lowercases (issuer keywords and wallet phrases). -/
def pyLower (s : String) : String :=
  (s.toList.map Char.toLower).asString

/-- Python `str.upper()` restricted to ASCII letters (used on station
name prefixes). -/
def pyUpper (s : String) : String :=
  (s.toList.map Char.toUpper).asString

/-- Python `str.strip()`: remove leading and trailing whitespace. -/
def pyStrip (s : String) : String :=
  (((s.toList.dropWhile Char.isWhitespace).reverse.dropWhile Char.isWhitespace).reverse).asString

/-- Index of the first occurrence of `p` in `t` (`str.find`, counted in
characters), or `none` when `p` does not occur (`p in t` is false). -/
def listIndexOf : List Char → List Char → Option Nat
  | [], p => if p = [] then some 0 else none
  | c :: rest, p =>
    if p.isPrefixOf (c :: rest) then some 0
    else (listIndexOf rest p).map (· + 1)

/-- Python `needle in haystack` for strings. -/
def strContains (haystack needle : String) : Bool :=
  (listIndexOf haystack.toList needle.toList).isSome

/-- Fuel-driven replace-all on character lists; with `fuel ≥ length of
the text` and a non-empty pattern this is Python
`str.replace(pat, rep)` / `re.sub` on a literal pattern. -/
def replaceFuel (pat rep : List Char) : Nat → List Char → List Char
  | 0, t => t
  | fuel + 1, t =>
    match t with
    | [] => []
    | c :: rest =>
      if pat ≠ [] ∧ pat.isPrefixOf t then
        rep ++ replaceFuel pat rep fuel (t.drop pat.length)
      else
        c :: replaceFuel pat rep fuel rest

/-- Python `text.replace(pat, rep)` for a non-empty literal `pat`. -/
def pyReplace (s pat rep : String) : String :=
  (replaceFuel pat.toList rep.toList s.toList.length s.toList).asString

/-- Python `str(t)[-k:]`: the last `k` characters of the decimal
representation (the whole string when it is shorter than `k`). -/
def lastChars (k : Nat) (s : String) : String :=
  (s.toList.drop (s.toList.length - k)).asString

/-! ## Python dictionaries as association lists

`dset` is `d[k] = v` (update in place when the key exists, append
otherwise, preserving insertion order as Python dicts do), `dget` is
`d.get(k)` and `dmem` is `k in d`. -/

def dget {α : Type} : List (String × α) → String → Option α
  | [], _ => none
  | (k, v) :: rest, key => if k = key then some v else dget rest key

def dset {α : Type} : List (String × α) → String → α → List (String × α)
  | [], key, v => [(key, v)]
  | (k, w) :: rest, key, v =>
    if k = key then (k, v) :: rest else (k, w) :: dset rest key v

def dmem {α : Type} (d : List (String × α)) (key : String) : Bool :=
  (dget d key).isSome

theorem dget_dset_self {α : Type} (d : List (String × α)) (k : String) (v : α) :
    dget (dset d k v) k = some v := by
  induction d with
  | nil => simp [dget, dset]
  | cons hd tl ih =>
    obtain ⟨k', w⟩ := hd
    by_cases h : k' = k <;> simp [dget, dset, h, ih]

theorem dget_dset_ne {α : Type} (d : List (String × α)) (k k' : String) (v : α)
    (h : k' ≠ k) : dget (dset d k v) k' = dget d k' := by
  have hne : ¬ k = k' := fun hh => h hh.symm
  induction d with
  | nil => simp [dget, dset, hne]
  | cons hd tl ih =>
    obtain ⟨k'', w⟩ := hd
    by_cases h2 : k'' = k
    · subst h2
      simp [dget, dset, hne]
    · by_cases h3 : k'' = k' <;> simp [dget, dset, h2, h3, ih, h]

theorem dmem_dset {α : Type} (d : List (String × α)) (k k' : String) (v : α) :
    dmem (dset d k v) k' = (k' = k ∨ dmem d k' = true) := by
  by_cases h : k' = k
  · subst h
    simp [dmem, dget_dset_self]
  · simp [dmem, dget_dset_ne d k k' v h, h]

theorem dmem_dset_self {α : Type} (d : List (String × α)) (k : String) (v : α) :
    dmem (dset d k v) k = true := by
  simp [dmem, dget_dset_self]

/-! ## Data model

`TicketField` mirrors the dataclass of the source: a field name, an
ordered pattern list, and an optional region given as width/height
ratios.  The Python float ratios are embedded as rationals. -/

structure TicketField where
  name : String
  patterns : List String
  region : Option (ℚ × ℚ × ℚ × ℚ) := none
deriving DecidableEq

/-- Extracted values: strings from OCR extraction, plus the boolean
flag stored by reference synthesis. -/
inductive Value where
  | str (s : String)
  | bool (b : Bool)
deriving DecidableEq

/-- Python `str(value)` rendering, used when a value feeds string
concatenation. -/
def Value.asString : Value → String
  | .str s => s
  | .bool b => if b then "True" else "False"

/-! ## Type classifier (`TicketScanner._determine_ticket_type`)

The raw image measurements (pixel statistics, line detection, QR
detection, full-image OCR) are delegated to OpenCV / pytesseract and
enter the embedding as an oracle record; the classifier logic on top
of them is embedded exactly. -/

structure ClassifierMeasurements where
  /-- `orange_pixels / mask.size` of the top-strip HSV orange mask. -/
  orangeFrac : ℚ
  /-- `np.std(gray - blur)`. -/
  textureMeasure : ℚ
  /-- whether `cv2.HoughLinesP` returned a non-`None` result. -/
  linesFound : Bool
  /-- `np.std(angles)` over the detected line angles (meaningful only
  when `linesFound` is true). -/
  angleVariation : ℚ
  /-- `np.std(illumination)` of the Lab luminance channel. -/
  illuminationVar : ℚ
  /-- whether the input array is 3-channel colour
  (`len(image.shape) == 3 and image.shape[2] == 3`). -/
  isColor : Bool
  /-- whether the OpenCV QR detector decoded a QR code. -/
  qrDetected : Bool
  /-- `pytesseract.image_to_string(image)` on the full image. -/
  ocrText : String
deriving DecidableEq

/-- The fixed phrase set checked (case-insensitively) against the
full-image OCR text. -/
def walletPhrases : List String :=
  ["add to wallet", "google wallet", "show railcard", "eticket"]

/-- The `digital_elements` feature: incremented by 1 for a detected QR
code and by 2.0 when the lowercased OCR text contains a wallet
phrase. -/
def digitalElements (m : ClassifierMeasurements) : ℚ :=
  (if m.qrDetected then 1 else 0) +
    (if walletPhrases.any (fun p => strContains (pyLower m.ocrText) p) then 2 else 0)

/-- The `orange_bar` feature: 1 when the orange fraction exceeds 0.2. -/
def orangeBarFeature (m : ClassifierMeasurements) : ℚ :=
  if m.orangeFrac > 0.2 then 1 else 0

/-- The `texture` feature: 1 when the texture measure exceeds 10. -/
def textureFeature (m : ClassifierMeasurements) : ℚ :=
  if m.textureMeasure > 10 then 1 else 0

/-- The `perspective` feature: 1 when lines were detected and their
angle variation exceeds 0.05, else 0. -/
def perspectiveFeature (m : ClassifierMeasurements) : ℚ :=
  if m.linesFound then (if m.angleVariation > 0.05 then 1 else 0) else 0

/-- The `shadow` feature: 1 when the image is colour and the luminance
variation exceeds 15, else 0. -/
def shadowFeature (m : ClassifierMeasurements) : ℚ :=
  if m.isColor then (if m.illuminationVar > 15 then 1 else 0) else 0

/-- The weighted paper-vs-digital score computed at the end of
`_determine_ticket_type`. -/
def paperScore (m : ClassifierMeasurements) : ℚ :=
  orangeBarFeature m * 1.5 + textureFeature m * 1.0 +
    perspectiveFeature m * 0.8 + shadowFeature m * 0.7 -
    digitalElements m * 2.0

/-- `TicketScanner._determine_ticket_type`.  When `debug` is on and
`cv2.HoughLinesP` found no lines, the debug branch executes
`for line in lines` with `lines = None`, raising a `TypeError` that
aborts the scan; this is modelled by the `Except.error` case.  In
every other case the function returns the label decided by the
weighted score. -/
def determineTicketType (m : ClassifierMeasurements) (debug : Bool) :
    Except String String :=
  if m.linesFound = false ∧ debug = true then
    Except.error "TypeError: NoneType object is not iterable"
  else
    Except.ok (if paperScore m > 0.5 then "paper" else "digital")

/-! ## Configuration selector (`TicketScanner._select_configuration`) -/

/-- The ordered issuer keyword table, in the insertion order of the
Python dict literal. -/
def configTable : List (String × List String) :=
  [("gwr", ["great western", "gwr"]),
   ("lner", ["lner", "london north eastern"]),
   ("tfl", ["transport for london", "tfl", "oyster"]),
   ("avanti", ["avanti", "west coast"]),
   ("trainline_app", ["trainline", "mobile ticket", "qr code"]),
   ("generic_digital", [])]

/-- `any(indicator in text.lower() for indicator in indicators)`. -/
def indicatorMatch (text : String) (indicators : List String) : Bool :=
  indicators.any (fun indicator => strContains (pyLower text) indicator)

def selectConfigurationAux (text : String) :
    List (String × List String) → String
  | [] => "generic_digital"
  | (name, indicators) :: rest =>
    if indicatorMatch text indicators then name
    else selectConfigurationAux text rest

/-- `TicketScanner._select_configuration`, as a function of the OCR
text of the working image: walk the keyword table in order, return the
first configuration whose indicator list has a substring match, and
fall back to `"generic_digital"` after the loop. -/
def selectConfiguration (text : String) : String :=
  selectConfigurationAux text configTable

/-! ## Field extractor (`TicketScanner._extract_ticket_details`) -/

/-- Python `int()` applied to an exact rational: truncation toward
zero (the source computes `int(ratio * dimension)`). -/
def pyInt (q : ℚ) : ℤ := q.num.tdiv q.den

/-- Clamp a numpy slice endpoint: negative indices count from the end
and the result is clamped into `[0, n]`. -/
def npIndex (n : ℕ) (i : ℤ) : ℤ :=
  if i < 0 then max 0 ((n : ℤ) + i) else min i (n : ℤ)

/-- Number of elements selected by the numpy slice `a:b` along an axis
of size `n`. -/
def sliceLen (n : ℕ) (a b : ℤ) : ℤ :=
  max 0 (npIndex n b - npIndex n a)

/-- Result of `re.search`: the whole matched text (`group(0)`) and the
capture groups.  The regular-expression engine itself is external, so
searches enter the embedding as an oracle. -/
structure ReMatch where
  group0 : String
  groups : List (Option String) := []
deriving DecidableEq

/-- The extractor environment: working-image dimensions plus the
external OCR and regex collaborators.  `search p t` models
`re.search(p, t, re.IGNORECASE | re.MULTILINE)`; `ocrRegion y1 y2 x1 x2`
models `pytesseract.image_to_string(image[y1:y2, x1:x2])` and
`ocrFull` the OCR of the whole working image. -/
structure ExtractEnv where
  width : ℕ
  height : ℕ
  search : String → String → Option ReMatch
  ocrFull : String
  ocrRegion : ℤ → ℤ → ℤ → ℤ → String

/-- The OCR text used for one field: with a region, convert the ratio
rectangle to absolute pixel bounds with `int` truncation and crop;
`none` models the `roi.size == 0` early `continue` (the field is
skipped).  Without a region, OCR the whole image. -/
def fieldText (env : ExtractEnv) (field : TicketField) : Option String :=
  match field.region with
  | none => some env.ocrFull
  | some (x1, y1, x2, y2) =>
    let roiX1 := pyInt (x1 * env.width)
    let roiY1 := pyInt (y1 * env.height)
    let roiX2 := pyInt (x2 * env.width)
    let roiY2 := pyInt (y2 * env.height)
    if sliceLen env.height roiY1 roiY2 = 0 ∨ sliceLen env.width roiX1 roiX2 = 0 then
      none
    else
      some (env.ocrRegion roiY1 roiY2 roiX1 roiX2)

/-- The pattern loop of the extractor: try each pattern in order; on
the first match store `match.group(0).strip()` (the whole matched
text, not a capture group) and stop. -/
def tryPatterns (search : String → String → Option ReMatch) :
    List String → String → Option String
  | [], _ => none
  | p :: rest, text =>
    match search p text with
    | some m => some (pyStrip m.group0)
    | none => tryPatterns search rest text

/-- The characters removed from a pattern by the fuzzy fallback
(`re.sub` with a character class of regex metacharacters). -/
def regexSpecialChars : List Char :=
  ['(', ')', '[', ']', '\x7b', '\x7d', '.', '+', '*', '?', '|', '^', '$']

/-- The fuzzy-fallback pattern cleaning: drop the metacharacters, then
remove the literal digit placeholder, then collapse the literal
whitespace token, then strip. -/
def cleanPattern (p : String) : String :=
  let s1 := (p.toList.filter (fun c => !regexSpecialChars.contains c)).asString
  let s2 := pyReplace s1 "\\d+" ""
  let s3 := pyReplace s2 "\\s+" " "
  pyStrip s3

/-- The candidate value taken after a successful fuzzy occurrence
ending at `pos`: the next 30 characters, cut at the first newline and
stripped. -/
def fuzzyValueAt (text : String) (pos : Nat) : String :=
  pyStrip (((text.toList.drop pos).take 30).takeWhile (fun c => c != '\n')).asString

/-- One fuzzy-fallback attempt for one pattern: when the cleaned
pattern is non-empty and occurs in the text, and the end of its first
occurrence lies strictly before the end of the text, the value is
taken from the text after the occurrence.  `none` makes the loop move
on to the next pattern. -/
def fuzzyStep (text p : String) : Option String :=
  let cp := cleanPattern p
  if cp = "" then none
  else
    match listIndexOf text.toList cp.toList with
    | none => none
    | some j =>
      let pos := j + cp.toList.length
      if pos < text.toList.length then some (fuzzyValueAt text pos)
      else none

/-- The fuzzy-fallback loop: first successful pattern wins. -/
def fuzzyTry (text : String) : List String → Option String
  | [] => none
  | p :: rest =>
    match fuzzyStep text p with
    | some v => some v
    | none => fuzzyTry text rest

/-- Processing of a single field: regex attempt (confidence 1.0), then
fuzzy fallback (confidence 0.6) when the field is still absent and the
OCR text is non-empty; the state is the pair of the `details` dict and
the `confidence_scores` dict. -/
def processField (env : ExtractEnv)
    (st : List (String × Value) × List (String × ℚ)) (field : TicketField) :
    List (String × Value) × List (String × ℚ) :=
  match fieldText env field with
  | none => st
  | some text =>
    let st1 :=
      match tryPatterns env.search field.patterns text with
      | some v => (dset st.1 field.name (.str v), dset st.2 field.name 1.0)
      | none => st
    if dmem st1.1 field.name = false ∧ text ≠ "" then
      match fuzzyTry text field.patterns with
      | some v => (dset st1.1 field.name (.str v), dset st1.2 field.name 0.6)
      | none => st1
    else st1

/-- `TicketScanner._extract_ticket_details` after the configuration
lookup: fold the per-field processing over the configuration, starting
from empty dicts. -/
def extractTicketDetails (env : ExtractEnv) (config : List TicketField) :
    List (String × Value) × List (String × ℚ) :=
  config.foldl (processField env) ([], [])

/-! ## Reference synthesis (`TicketScanner._generate_ticket_reference`) -/

/-- `TicketScanner._generate_ticket_reference`, with the clock passed
in as the Unix timestamp `now`: join with `-` an origin token
(`origin_code`, else the first three characters of `origin_station`
uppercased), a destination token (same rule), and the last six digits
of the timestamp; store the reference with confidence 0.5 and set the
`is_reference_generated` flag (for which no confidence entry is
written). -/
def generateTicketReference (data : List (String × Value))
    (conf : List (String × ℚ)) (now : ℕ) :
    List (String × Value) × List (String × ℚ) :=
  let originParts : List String :=
    match dget data "origin_code" with
    | some v => [v.asString]
    | none =>
      match dget data "origin_station" with
      | some v => [pyUpper (v.asString.take 3)]
      | none => []
  let destParts : List String :=
    match dget data "destination_code" with
    | some v => [v.asString]
    | none =>
      match dget data "destination_station" with
      | some v => [pyUpper (v.asString.take 3)]
      | none => []
  let refParts := originParts ++ destParts ++ [lastChars 6 (toString now)]
  let ref := String.intercalate "-" refParts
  (dset (dset data "ticket_reference" (.str ref)) "is_reference_generated" (.bool true),
   dset conf "ticket_reference" 0.5)

/-- The post-extraction step of `scan`: synthesize a reference exactly
when extraction produced no `ticket_reference` entry. -/
def finalizeData (dc : List (String × Value) × List (String × ℚ)) (now : ℕ) :
    List (String × Value) × List (String × ℚ) :=
  if dmem dc.1 "ticket_reference" then dc
  else generateTicketReference dc.1 dc.2 now

/-! ## Default configurations

`get_trainline_configuration` from
`trainline_ticket_digital_config.py` and
`TicketScanner._get_default_configurations`.  Literal braces inside
the regex pattern strings are written with their character escapes. -/

def getTrainlineConfiguration : List TicketField :=
  [{ name := "ticket_provider",
     patterns := ["(Eticket)", "(Trainline)"],
     region := some (0.13, 0.12, 0.3, 0.14) },
   { name := "origin_station",
     patterns := ["([A-Za-z\\s]+(?::STATIONS)?)"],
     region := some (0.0, 0.49, 0.5, 0.53) },
   { name := "origin_code",
     patterns := ["([A-Z]\x7b3\x7d)"],
     region := some (0, 0.5, 0.46, 0.61) },
   { name := "destination_station",
     patterns := ["([A-Za-z\\s]+)"],
     region := some (0.5, 0.49, 1, 0.53) },
   { name := "destination_code",
     patterns := ["(GRA)", "([A-Z]\x7b3\x7d)"],
     region := some (0.5, 0.5, 1, 0.61) },
   { name := "travel_date",
     patterns := ["(\\d\x7b2\x7d\\s+[A-Za-z]\x7b3\x7d\\s+\\d\x7b4\x7d)", "08\\s+Feb\\s+2025"],
     region := some (0.22, 0.58, 0.4, 0.6) },
   { name := "journey_direction",
     patterns := ["(Ret):\\s+[A-Z]\x7b3\x7d\\s*-\\s*[A-Z]\x7b3\x7d",
                  "Out:\\s+[A-Z]\x7b3\x7d\\s*-\\s*[A-Z]\x7b3\x7d"],
     region := some (0.5, 0.35, 1, 0.5) },
   { name := "ticket_type",
     patterns := ["(Off-Peak|Anytime|Advance|Super Off-Peak)(?:\\s+Return|Single)?"],
     region := some (0, 0.5, 0.6, 0.8) },
   { name := "route",
     patterns := ["(Any Permitted)", "(Not via .+|Via .+|Any Permitted)"],
     region := some (0.55, 0.5, 1, 0.8) },
   { name := "passenger_type",
     patterns := ["(ADULT)", "(CHILD)"],
     region := some (0.06, 0.8, 0.2, 0.83) },
   { name := "railcard",
     patterns := ["(26-30 Railcard)", "(\\d\x7b2\x7d-\\d\x7b2\x7d\\s+Railcard)",
                  "([A-Za-z\\s\\-]+Railcard)"],
     region := some (0.06, 0.83, 0.4, 0.85) },
   { name := "valid_until",
     patterns := ["(\\d\x7b2\x7d\\s+[A-Za-z]\x7b3\x7d\\s+\\d\x7b4\x7d)", "07\\s+Mar\\s+2025"],
     region := some (0.55, 0.83, 0.94, 0.85) },
   { name := "reference",
     patterns := ["(TTF[A-Z0-9]+)", "([A-Z0-9]\x7b9,12\x7d)"],
     region := some (0.2, 0.51, 0.8, 0.53) },
   { name := "digital_indicators",
     patterns := ["(Add to Google Wallet)", "(Show Railcard)"],
     region := some (0.2, 0.25, 0.8, 0.35) }]

def getDefaultConfigurations : List (String × List TicketField) :=
  [("generic",
    [{ name := "origin_station",
       patterns := ["(?:From|Origin)[:\\s]+(.+?)(?:\\s+to|\\s*$|[,\\.])",
                    "ORIGIN[:\\s]+(.+?)(?:\\s+to|\\s*$|[,\\.])"],
       region := some (0.05, 0.2, 0.45, 0.4) },
     { name := "destination_station",
       patterns := ["(?:To|Destination)[:\\s]+(.+?)(?:\\s*$|[,\\.])",
                    "DESTINATION[:\\s]+(.+?)(?:\\s*$|[,\\.])"],
       region := some (0.55, 0.2, 0.95, 0.4) },
     { name := "date",
       patterns := ["(?:Date|Valid)[:\\s]+([0-9]\x7b1,2\x7d[\\/\\.\\-][0-9]\x7b1,2\x7d[\\/\\.\\-][0-9]\x7b2,4\x7d)",
                    "(?:Date|Valid)[:\\s]+([0-9]\x7b1,2\x7d(?:st|nd|rd|th)?\\s+[A-Za-z]+\\s+[0-9]\x7b2,4\x7d)"],
       region := some (0.1, 0.4, 0.9, 0.6) },
     { name := "ticket_type",
       patterns := ["(?:Type|Class)[:\\s]+(.+?)(?:\\s*$|[,\\.])",
                    "(STANDARD|FIRST|1ST|ANYTIME|OFF-PEAK|SUPER OFF-PEAK)(?:\\s+CLASS)?"],
       region := some (0.1, 0.5, 0.9, 0.7) },
     { name := "price",
       patterns := ["(?:Price|Cost|Fare)[:\\s]*£?([0-9]+\\.[0-9]\x7b2\x7d)",
                    "£([0-9]+\\.[0-9]\x7b2\x7d)"],
       region := some (0.7, 0.7, 0.95, 0.9) },
     { name := "ticket_reference",
       patterns := ["(?:Reference|Ref)[:\\s]*([A-Z0-9-]+)",
                    "([A-Z0-9]\x7b2,\x7d-[A-Z0-9]\x7b2,\x7d-[A-Z0-9]\x7b2,\x7d)"],
       region := some (0.4, 0.8, 0.9, 0.95) }]),
   ("gwr",
    [{ name := "origin_station",
       patterns := ["FROM\\s+(.+?)(?:\\s+TO|\\s*$|[,\\.])",
                    "(?:From|Origin)[:\\s]+(.+?)(?:\\s+to|\\s*$|[,\\.])"],
       region := some (0.05, 0.2, 0.45, 0.3) },
     { name := "destination_station",
       patterns := ["TO\\s+(.+?)(?:\\s*$|[,\\.])",
                    "(?:To|Destination)[:\\s]+(.+?)(?:\\s*$|[,\\.])"],
       region := some (0.55, 0.2, 0.95, 0.3) },
     { name := "date",
       patterns := ["VALID\\s+(?:ON|FOR)\\s+(.+?)(?:\\s*$|[,\\.])",
                    "(?:Date|Valid)[:\\s]+(.+?)(?:\\s*$|[,\\.])"],
       region := some (0.1, 0.3, 0.9, 0.4) },
     { name := "ticket_type",
       patterns := ["(STANDARD|FIRST)\\s+CLASS", "(ANYTIME|OFF-PEAK|SUPER OFF-PEAK)"],
       region := some (0.1, 0.4, 0.9, 0.5) },
     { name := "price",
       patterns := ["£([0-9]+\\.[0-9]\x7b2\x7d)", "GBP\\s+([0-9]+\\.[0-9]\x7b2\x7d)"],
       region := some (0.7, 0.7, 0.95, 0.8) },
     { name := "ticket_reference",
       patterns := ["TICKET\\s+NUMBER\\s+([A-Z0-9-]+)", "REF[:\\s]+([A-Z0-9-]+)"],
       region := some (0.4, 0.8, 0.9, 0.95) }]),
   ("trainline_app", getTrainlineConfiguration),
   ("generic_digital", getTrainlineConfiguration)]

/-! ## Scan entry point (`TicketScanner.scan` and `__main__`) -/

/-- The configuration-name fallback at the top of
`_extract_ticket_details`: a selected name absent from the
configurations table is silently replaced by `"generic"`. -/
def effectiveConfigName (cfgs : List (String × List TicketField))
    (name : String) : String :=
  if dmem cfgs name then name else "generic"

/-- The per-scan environment: the image-codec outcome, the classifier
measurements, the debug flag, the OCR text used for configuration
selection, the extraction oracles, and the clock. -/
structure ScanEnv where
  imageLoaded : Bool
  measurements : ClassifierMeasurements
  debug : Bool
  configOcrText : String
  extract : ExtractEnv
  now : ℕ

/-- The record returned by a successful `TicketScanner.scan`. -/
structure ScanResult where
  ticket_type : String
  configuration_used : String
  data : List (String × Value)
  confidence : List (String × ℚ)
deriving DecidableEq

/-- `TicketScanner.scan`: fail fast when the image cannot be decoded,
classify, select a configuration, extract, synthesize a reference when
needed, and return the result record.  Preprocessing and cropping only
determine the working image, whose observable content enters through
the OCR oracles. -/
def scan (env : ScanEnv) (imagePath : String)
    (cfgs : List (String × List TicketField)) : Except String ScanResult :=
  if env.imageLoaded = false then
    Except.error ("Could not load image from " ++ imagePath)
  else
    match determineTicketType env.measurements env.debug with
    | .error e => .error e
    | .ok ttype =>
      let configName := selectConfiguration env.configOcrText
      match dget cfgs (effectiveConfigName cfgs configName) with
      | none => .error "KeyError: generic"
      | some config =>
        let dc := finalizeData (extractTicketDetails env.extract config) env.now
        .ok { ticket_type := ttype, configuration_used := configName,
              data := dc.1, confidence := dc.2 }

/-- Caller-visible output of `__main__`: either the full result record
or the error record printed by the `except` clause. -/
inductive MainOutput where
  | record (r : ScanResult)
  | errorRecord (fields : List (String × String))
deriving DecidableEq

/-- The `__main__` wrapper: print the scan result, or
`{"error": str(e)}` when any exception escapes `scan`. -/
def mainOutput (env : ScanEnv) (imagePath : String)
    (cfgs : List (String × List TicketField)) : MainOutput :=
  match scan env imagePath cfgs with
  | .ok r => .record r
  | .error e => .errorRecord [("error", e)]

/-! ## Helper lemmas about the pixel-bound computation -/

theorem pyInt_eq_floor {q : ℚ} (h : 0 ≤ q) : pyInt q = ⌊q⌋ := by
  rw [pyInt, Int.tdiv_eq_ediv (Rat.num_nonneg.mpr h) (Int.natCast_nonneg q.den)]
  exact Rat.floor_def.symm

theorem pyInt_axis_bounds (a b : ℚ) (n : ℕ) (ha : 0 ≤ a) (hab : a < b) (hb : b ≤ 1) :
    0 ≤ pyInt (a * n) ∧ pyInt (a * n) ≤ pyInt (b * n) ∧ pyInt (b * n) ≤ (n : ℤ) := by
  have hn : (0 : ℚ) ≤ (n : ℚ) := by positivity
  have h1 : 0 ≤ a * n := mul_nonneg ha hn
  have h2 : 0 ≤ b * n := mul_nonneg (ha.trans hab.le) hn
  rw [pyInt_eq_floor h1, pyInt_eq_floor h2]
  refine ⟨Int.floor_nonneg.mpr h1,
    Int.floor_le_floor (mul_le_mul_of_nonneg_right hab.le hn), ?_⟩
  calc ⌊b * n⌋ ≤ ⌊(n : ℚ)⌋ := by
        refine Int.floor_le_floor ?_
        calc b * n ≤ 1 * n := mul_le_mul_of_nonneg_right hb hn
          _ = n := one_mul _
    _ = (n : ℤ) := Int.floor_natCast n

theorem pyInt_axis_gap (a b : ℚ) (n : ℕ) (ha : 0 ≤ a) (hgap : 1 ≤ (b - a) * n) :
    pyInt (a * n) < pyInt (b * n) := by
  have hn : (0 : ℚ) ≤ (n : ℚ) := by positivity
  have h1 : 0 ≤ a * n := mul_nonneg ha hn
  have hexp : (b - a) * n = b * n - a * n := by ring
  have key : a * n + 1 ≤ b * n := by rw [hexp] at hgap; linarith
  have h2 : 0 ≤ b * n := le_trans (by linarith) key
  rw [pyInt_eq_floor h1, pyInt_eq_floor h2]
  have step : ⌊a * n⌋ + 1 ≤ ⌊b * n⌋ := by
    rw [← Int.floor_add_one]
    exact Int.floor_le_floor key
  omega

theorem sliceLen_pos (n : ℕ) (a b : ℤ) (ha : 0 ≤ a) (hb : b ≤ (n : ℤ)) (hab : a < b) :
    0 < sliceLen n a b := by
  simp only [sliceLen, npIndex]
  rw [if_neg (by omega), if_neg (by omega)]
  omega

/-- Claim C2 (amended): for every region with valid ratios
(0 ≤ x1 < x2 ≤ 1, 0 ≤ y1 < y2 ≤ 1) and every positive image size, the
pixel bounds computed by truncating ratio times dimension are
non-negative, ordered, and within the image bounds; the crop is
furthermore non-empty (and the field is then not skipped) whenever the
ratio spans cover at least one whole pixel, i.e. (x2 - x1) * width ≥ 1
and (y2 - y1) * height ≥ 1.  Without that extra condition the crop can
collapse to zero size (see the counterexample). -/
theorem c2_pixel_bounds (env : ExtractEnv) (f : TicketField) (x1 y1 x2 y2 : ℚ)
    (hreg : f.region = some (x1, y1, x2, y2))
    (hx1 : 0 ≤ x1) (hx12 : x1 < x2) (hx2 : x2 ≤ 1)
    (hy1 : 0 ≤ y1) (hy12 : y1 < y2) (hy2 : y2 ≤ 1)
    (hw : 0 < env.width) (hh : 0 < env.height) :
    (0 ≤ pyInt (x1 * env.width) ∧ pyInt (x1 * env.width) ≤ pyInt (x2 * env.width) ∧
      pyInt (x2 * env.width) ≤ (env.width : ℤ)) ∧
    (0 ≤ pyInt (y1 * env.height) ∧ pyInt (y1 * env.height) ≤ pyInt (y2 * env.height) ∧
      pyInt (y2 * env.height) ≤ (env.height : ℤ)) ∧
    (1 ≤ (x2 - x1) * env.width → 1 ≤ (y2 - y1) * env.height →
      0 < sliceLen env.width (pyInt (x1 * env.width)) (pyInt (x2 * env.width)) ∧
      0 < sliceLen env.height (pyInt (y1 * env.height)) (pyInt (y2 * env.height)) ∧
      fieldText env f = some (env.ocrRegion (pyInt (y1 * env.height)) (pyInt (y2 * env.height))
        (pyInt (x1 * env.width)) (pyInt (x2 * env.width)))) := by
  obtain ⟨hxa, hxb, hxc⟩ := pyInt_axis_bounds x1 x2 env.width hx1 hx12 hx2
  obtain ⟨hya, hyb, hyc⟩ := pyInt_axis_bounds y1 y2 env.height hy1 hy12 hy2
  refine ⟨⟨hxa, hxb, hxc⟩, ⟨hya, hyb, hyc⟩, fun hgx hgy => ?_⟩
  have hxlt := pyInt_axis_gap x1 x2 env.width hx1 hgx
  have hylt := pyInt_axis_gap y1 y2 env.height hy1 hgy
  have hxpos := sliceLen_pos env.width _ _ hxa hxc hxlt
  have hypos := sliceLen_pos env.height _ _ hya hyc hylt
  refine ⟨hxpos, hypos, ?_⟩
  simp only [fieldText, hreg]
  rw [if_neg]
  push_neg
  exact ⟨by omega, by omega⟩

def c2Env : ExtractEnv :=
  { width := 1, height := 1, search := fun _ _ => none, ocrFull := "",
    ocrRegion := fun _ _ _ _ => "" }

def c2Field : TicketField :=
  { name := "price", patterns := [], region := some (0.2, 0.2, 0.4, 0.4) }

/-- Claim C2, counterexample: the region (0.2, 0.2, 0.4, 0.4) has
valid ratios and the 1 by 1 image has positive size, yet the computed
crop is empty (both truncated bounds are 0) and the extractor skips
the field. -/
theorem c2_counterexample :
    ((0 : ℚ) ≤ 0.2 ∧ (0.2 : ℚ) < 0.4 ∧ (0.4 : ℚ) ≤ 1) ∧
    0 < c2Env.width ∧ 0 < c2Env.height ∧
    sliceLen c2Env.width (pyInt ((0.2 : ℚ) * c2Env.width)) (pyInt ((0.4 : ℚ) * c2Env.width)) = 0 ∧
    fieldText c2Env c2Field = none := by
  refine ⟨⟨by norm_num, by norm_num, by norm_num⟩, by decide, by decide, ?_, ?_⟩ <;>
    with_unfolding_all rfl

def c2WitnessEnv : ExtractEnv :=
  { width := 100, height := 100, search := fun _ _ => none, ocrFull := "",
    ocrRegion := fun _ _ _ _ => "roi text" }

def c2WitnessField : TicketField :=
  { name := "origin_station", patterns := [], region := some (0.05, 0.2, 0.45, 0.4) }

/-- Witness for C2 at the generic origin-station region on a
100 by 100 image. -/
theorem c2_pixel_bounds_witness :
    (0 ≤ pyInt ((0.05 : ℚ) * c2WitnessEnv.width) ∧
      pyInt ((0.05 : ℚ) * c2WitnessEnv.width) ≤ pyInt ((0.45 : ℚ) * c2WitnessEnv.width) ∧
      pyInt ((0.45 : ℚ) * c2WitnessEnv.width) ≤ (c2WitnessEnv.width : ℤ)) ∧
    (0 ≤ pyInt ((0.2 : ℚ) * c2WitnessEnv.height) ∧
      pyInt ((0.2 : ℚ) * c2WitnessEnv.height) ≤ pyInt ((0.4 : ℚ) * c2WitnessEnv.height) ∧
      pyInt ((0.4 : ℚ) * c2WitnessEnv.height) ≤ (c2WitnessEnv.height : ℤ)) ∧
    (1 ≤ ((0.45 : ℚ) - 0.05) * c2WitnessEnv.width → 1 ≤ ((0.4 : ℚ) - 0.2) * c2WitnessEnv.height →
      0 < sliceLen c2WitnessEnv.width (pyInt ((0.05 : ℚ) * c2WitnessEnv.width))
        (pyInt ((0.45 : ℚ) * c2WitnessEnv.width)) ∧
      0 < sliceLen c2WitnessEnv.height (pyInt ((0.2 : ℚ) * c2WitnessEnv.height))
        (pyInt ((0.4 : ℚ) * c2WitnessEnv.height)) ∧
      fieldText c2WitnessEnv c2WitnessField =
        some (c2WitnessEnv.ocrRegion (pyInt ((0.2 : ℚ) * c2WitnessEnv.height))
          (pyInt ((0.4 : ℚ) * c2WitnessEnv.height)) (pyInt ((0.05 : ℚ) * c2WitnessEnv.width))
          (pyInt ((0.45 : ℚ) * c2WitnessEnv.width)))) :=
  c2_pixel_bounds c2WitnessEnv c2WitnessField 0.05 0.2 0.45 0.4 rfl
    (by norm_num) (by norm_num) (by norm_num) (by norm_num) (by norm_num) (by norm_num)
    (by decide) (by decide)

/-! ## Claim C3 -/

def c3Measurements : ClassifierMeasurements :=
  { orangeFrac := 0, textureMeasure := 0, linesFound := false, angleVariation := 0,
    illuminationVar := 0, isColor := true, qrDetected := false, ocrText := "" }

/-- Claim C3: the debug instrumentation is not neutral.  On an image
where line detection finds no lines, the classifier returns the label
"digital" with debug off, but with debug on the dead-end debug branch
iterates over the absent line list and raises a TypeError, so no label
is returned at all. -/
theorem c3_debug_not_neutral :
    determineTicketType c3Measurements true =
      Except.error "TypeError: NoneType object is not iterable" ∧
    determineTicketType c3Measurements false = Except.ok "digital" := by
  constructor
  · with_unfolding_all rfl
  · with_unfolding_all rfl

/-! ## Claim C4 -/

theorem selectConfigurationAux_of_first (text : String)
    (pre : List (String × List String)) (name : String) (inds : List String)
    (rest : List (String × List String))
    (hpre : ∀ e ∈ pre, indicatorMatch text e.2 = false)
    (hmatch : indicatorMatch text inds = true) :
    selectConfigurationAux text (pre ++ (name, inds) :: rest) = name := by
  induction pre with
  | nil => simp [selectConfigurationAux, hmatch]
  | cons a l ih =>
    have ha := hpre a (by simp)
    obtain ⟨n0, i0⟩ := a
    simp only [List.cons_append, selectConfigurationAux]
    rw [if_neg (by simp [ha])]
    exact ih (fun e he => hpre e (by simp [he]))

theorem selectConfigurationAux_of_none (text : String)
    (l : List (String × List String))
    (h : ∀ e ∈ l, indicatorMatch text e.2 = false) :
    selectConfigurationAux text l = "generic_digital" := by
  induction l with
  | nil => rfl
  | cons a rest ih =>
    obtain ⟨n0, i0⟩ := a
    have ha := h (n0, i0) (by simp)
    simp only [selectConfigurationAux]
    rw [if_neg (by simp [ha])]
    exact ih (fun e he => h e (by simp [he]))

/-- Claim C4 (amended): configuration selection walks the ordered
keyword table and the first configuration with a lowercased substring
match wins; the empty keyword list of the final entry never matches
anything (an any-test over an empty list is false), and the designated
default "generic_digital" is instead produced by the fall-through
return after the loop.  Consequently text containing
"transport for london" (any case) selects "tfl" provided no
earlier-listed keyword (gwr or lner) also occurs, and text matching no
keyword at all selects "generic_digital". -/
theorem c4_configuration_selection (text : String) :
    (∀ pre name inds rest, configTable = pre ++ (name, inds) :: rest →
      (∀ e ∈ pre, indicatorMatch text e.2 = false) →
      indicatorMatch text inds = true →
      selectConfiguration text = name) ∧
    ((∀ e ∈ configTable, indicatorMatch text e.2 = false) →
      selectConfiguration text = "generic_digital") ∧
    (strContains (pyLower text) "transport for london" = true →
      indicatorMatch text ["great western", "gwr"] = false →
      indicatorMatch text ["lner", "london north eastern"] = false →
      selectConfiguration text = "tfl") := by
  refine ⟨?_, ?_, ?_⟩
  · intro pre name inds rest htab hpre hmatch
    rw [selectConfiguration, htab]
    exact selectConfigurationAux_of_first text pre name inds rest hpre hmatch
  · intro hnone
    exact selectConfigurationAux_of_none text configTable hnone
  · intro htfl hgwr hlner
    have htab : configTable =
        [("gwr", ["great western", "gwr"]), ("lner", ["lner", "london north eastern"])] ++
          ("tfl", ["transport for london", "tfl", "oyster"]) ::
            [("avanti", ["avanti", "west coast"]),
             ("trainline_app", ["trainline", "mobile ticket", "qr code"]),
             ("generic_digital", [])] := rfl
    rw [selectConfiguration, htab]
    refine selectConfigurationAux_of_first text _ _ _ _ ?_ ?_
    · intro e he
      simp only [List.mem_cons, List.mem_singleton] at he
      rcases he with he | he | he
      · rw [he]; exact hgwr
      · rw [he]; exact hlner
      · cases he
    · simp only [indicatorMatch, List.any_cons, htfl, Bool.true_or]

/-- Claim C4, counterexample: on text containing no keyword at all,
no entry of the table matches — in particular the empty keyword list
of the final "generic_digital" entry is not a guaranteed match, an
any-test over an empty list being false — yet the selector still
returns "generic_digital", via the fall-through return after the
loop. -/
theorem c4_counterexample :
    indicatorMatch "platform nine" [] = false ∧
    (∀ e ∈ configTable, indicatorMatch "platform nine" e.2 = false) ∧
    selectConfiguration "platform nine" = "generic_digital" := by
  refine ⟨by decide, ?_, by decide⟩
  decide

/-- Witness for C4: mixed-case "Transport For London" text selects
"tfl", and keyword-free text selects "generic_digital". -/
theorem c4_configuration_selection_witness :
    selectConfiguration "see Transport For London for details" = "tfl" ∧
    selectConfiguration "hello world" = "generic_digital" := by
  constructor
  · exact (c4_configuration_selection "see Transport For London for details").2.2
      (by decide) (by decide) (by decide)
  · exact (c4_configuration_selection "hello world").2.1 (by decide)

/-! ## Claim C8 -/

/-- Claim C8: whenever the classifier returns a label (debug crash
aside, see C3), the label is "paper" exactly when the weighted score
1.5 * orange_bar + 1.0 * texture + 0.8 * perspective + 0.7 * shadow
- 2.0 * digital_elements exceeds 0.5, with digital_elements built from
the QR increment (1) and the wallet-phrase increment (2.0). -/
theorem c8_weighted_score (m : ClassifierMeasurements) (debug : Bool) (l : String)
    (h : determineTicketType m debug = Except.ok l) :
    paperScore m =
      orangeBarFeature m * 1.5 + textureFeature m * 1.0 + perspectiveFeature m * 0.8 +
        shadowFeature m * 0.7 - digitalElements m * 2.0 ∧
    digitalElements m =
      (if m.qrDetected then 1 else 0) +
        (if walletPhrases.any (fun p => strContains (pyLower m.ocrText) p) then 2 else 0) ∧
    (l = "paper" ↔ paperScore m > 0.5) := by
  refine ⟨rfl, rfl, ?_⟩
  unfold determineTicketType at h
  split at h
  · cases h
  · rw [Except.ok.injEq] at h
    subst h
    by_cases hs : paperScore m > 0.5
    · simp [hs]
    · simp only [if_neg hs]
      constructor
      · intro hd
        exact absurd hd (by decide)
      · intro hp
        exact absurd hp hs

def c8Measurements : ClassifierMeasurements :=
  { orangeFrac := 0.3, textureMeasure := 11, linesFound := true, angleVariation := 0.06,
    illuminationVar := 16, isColor := true, qrDetected := false, ocrText := "FROM LVP TO GRA" }

/-- Witness for C8: a measurement vector with all four paper features
on and no digital elements scores 4.0 and is classified "paper". -/
theorem c8_weighted_score_witness :
    paperScore c8Measurements =
      orangeBarFeature c8Measurements * 1.5 + textureFeature c8Measurements * 1.0 +
        perspectiveFeature c8Measurements * 0.8 + shadowFeature c8Measurements * 0.7 -
        digitalElements c8Measurements * 2.0 ∧
    digitalElements c8Measurements =
      (if c8Measurements.qrDetected then 1 else 0) +
        (if walletPhrases.any (fun p => strContains (pyLower c8Measurements.ocrText) p) then 2
         else 0) ∧
    ("paper" = "paper" ↔ paperScore c8Measurements > 0.5) :=
  c8_weighted_score c8Measurements false "paper" (by with_unfolding_all rfl)

/-! ## Claim C9 -/

/-- Claim C9: when the image fails to decode, the scan aborts (no
result record is produced) and the caller-visible output of the main
wrapper is exactly the single-key error record. -/
theorem c9_unreadable_image (env : ScanEnv) (path : String)
    (cfgs : List (String × List TicketField)) (h : env.imageLoaded = false) :
    mainOutput env path cfgs =
      .errorRecord [("error", "Could not load image from " ++ path)] ∧
    (∀ r, mainOutput env path cfgs ≠ .record r) := by
  have hscan : scan env path cfgs =
      Except.error ("Could not load image from " ++ path) := by
    unfold scan
    rw [if_pos h]
  constructor
  · unfold mainOutput
    rw [hscan]
  · intro r
    unfold mainOutput
    rw [hscan]
    intro hc
    cases hc

def c9Env : ScanEnv :=
  { imageLoaded := false, measurements := c3Measurements, debug := false,
    configOcrText := "", extract := c2Env, now := 123456 }

/-- Witness for C9 at a concrete environment whose image codec
failed. -/
theorem c9_unreadable_image_witness :
    mainOutput c9Env "corrupt.jpg" getDefaultConfigurations =
      .errorRecord [("error", "Could not load image from " ++ "corrupt.jpg")] ∧
    (∀ r, mainOutput c9Env "corrupt.jpg" getDefaultConfigurations ≠ .record r) :=
  c9_unreadable_image c9Env "corrupt.jpg" getDefaultConfigurations rfl

/-! ## Claim C5 -/

theorem tryPatterns_of_first (search : String → String → Option ReMatch)
    (pre : List String) (p : String) (rest : List String) (text : String) (m : ReMatch)
    (hpre : ∀ q ∈ pre, search q text = none) (hp : search p text = some m) :
    tryPatterns search (pre ++ p :: rest) text = some (pyStrip m.group0) := by
  induction pre with
  | nil => simp [tryPatterns, hp]
  | cons a l ih =>
    have ha := hpre a (by simp)
    simp only [List.cons_append, tryPatterns, ha]
    exact ih (fun q hq => hpre q (by simp [hq]))

theorem fieldText_patterns_irrelevant (env : ExtractEnv) (f : TicketField)
    (ps : List String) : fieldText env { f with patterns := ps } = fieldText env f := by
  unfold fieldText
  rfl

/-- Claim C5: for a field whose OCR text is available, the extractor
tries the patterns in order; when every pattern before p fails and p
matches with match object m, it stores the stripped whole match
(group 0, independent of any capture groups of m) with confidence 1.0,
and the outcome is the same as if the patterns after p were not there
at all. -/
theorem c5_first_pattern_wins (env : ExtractEnv)
    (st : List (String × Value) × List (String × ℚ)) (f : TicketField)
    (pre rest : List String) (p text : String) (m : ReMatch)
    (hpat : f.patterns = pre ++ p :: rest)
    (htext : fieldText env f = some text)
    (hpre : ∀ q ∈ pre, env.search q text = none)
    (hp : env.search p text = some m) :
    processField env st f =
      (dset st.1 f.name (.str (pyStrip m.group0)), dset st.2 f.name 1.0) ∧
    processField env st f = processField env st { f with patterns := pre ++ [p] } := by
  have htry : tryPatterns env.search f.patterns text = some (pyStrip m.group0) := by
    rw [hpat]
    exact tryPatterns_of_first env.search pre p rest text m hpre hp
  have htry' : tryPatterns env.search (pre ++ [p]) text = some (pyStrip m.group0) :=
    tryPatterns_of_first env.search pre p [] text m hpre hp
  have hmain : processField env st f =
      (dset st.1 f.name (.str (pyStrip m.group0)), dset st.2 f.name 1.0) := by
    simp [processField, htext, htry, dmem_dset_self]
  refine ⟨hmain, ?_⟩
  have htext' : fieldText env { f with patterns := pre ++ [p] } = some text := by
    rw [fieldText_patterns_irrelevant]
    exact htext
  have hmain' : processField env st { f with patterns := pre ++ [p] } =
      (dset st.1 f.name (.str (pyStrip m.group0)), dset st.2 f.name 1.0) := by
    simp [processField, htext', htry', dmem_dset_self]
  rw [hmain, hmain']

def c5Search : String → String → Option ReMatch := fun p _ =>
  if p = "£([0-9]+\\.[0-9]\x7b2\x7d)" then
    some { group0 := " £12.50 ", groups := [some "12.50"] }
  else none

def c5Env : ExtractEnv :=
  { width := 100, height := 100, search := c5Search,
    ocrFull := "Fare £12.50 total", ocrRegion := fun _ _ _ _ => "Fare £12.50 total" }

def c5Field : TicketField :=
  { name := "price",
    patterns := ["(?:Price|Cost|Fare)[:\\s]*£?([0-9]+\\.[0-9]\x7b2\x7d)",
                 "£([0-9]+\\.[0-9]\x7b2\x7d)"],
    region := none }

/-- Witness for C5: the first price pattern fails, the second matches
with whole match " £12.50 " and capture group "12.50"; the stored
value is the stripped whole match "£12.50" (not the capture group),
with confidence 1.0. -/
theorem c5_first_pattern_wins_witness :
    processField c5Env ([], []) c5Field =
      (dset ([] : List (String × Value)) c5Field.name (.str (pyStrip " £12.50 ")),
        dset ([] : List (String × ℚ)) c5Field.name 1.0) ∧
    processField c5Env ([], []) c5Field =
      processField c5Env ([], [])
        { c5Field with patterns := ["(?:Price|Cost|Fare)[:\\s]*£?([0-9]+\\.[0-9]\x7b2\x7d)",
                                    "£([0-9]+\\.[0-9]\x7b2\x7d)"] } :=
  c5_first_pattern_wins c5Env ([], []) c5Field
    ["(?:Price|Cost|Fare)[:\\s]*£?([0-9]+\\.[0-9]\x7b2\x7d)"] []
    "£([0-9]+\\.[0-9]\x7b2\x7d)" "Fare £12.50 total"
    { group0 := " £12.50 ", groups := [some "12.50"] }
    rfl rfl (by decide) (by decide)

/-! ## Claim C6 -/

theorem digitChar_isDigit {n : ℕ} (h : n < 10) : (Nat.digitChar n).isDigit = true := by
  interval_cases n <;> decide

theorem toList_asString (l : List Char) : (l.asString).toList = l := rfl

theorem toDigitsCore_all_digits (f : ℕ) :
    ∀ (n : ℕ) (l : List Char), (∀ c ∈ l, c.isDigit = true) →
      ∀ c ∈ Nat.toDigitsCore 10 f n l, c.isDigit = true := by
  induction f with
  | zero => intro n l hl c hc; exact hl c hc
  | succ f ih =>
    intro n l hl c hc
    have hd : ∀ c ∈ Nat.digitChar (n % 10) :: l, c.isDigit = true := by
      intro c hc
      rcases List.mem_cons.mp hc with h | h
      · subst h
        exact digitChar_isDigit (Nat.mod_lt n (by norm_num))
      · exact hl c h
    simp only [Nat.toDigitsCore] at hc
    by_cases h0 : n / 10 = 0
    · rw [if_pos h0] at hc
      exact hd c hc
    · rw [if_neg h0] at hc
      exact ih (n / 10) _ hd c hc

theorem toDigitsCore_length_mono (f : ℕ) :
    ∀ (n : ℕ) (l : List Char), l.length ≤ (Nat.toDigitsCore 10 f n l).length := by
  induction f with
  | zero => intro n l; exact le_refl _
  | succ f ih =>
    intro n l
    simp only [Nat.toDigitsCore]
    by_cases h0 : n / 10 = 0
    · rw [if_pos h0]
      simp
    · rw [if_neg h0]
      calc l.length ≤ (Nat.digitChar (n % 10) :: l).length := by simp
        _ ≤ _ := ih (n / 10) _

theorem toDigitsCore_length_succ (f : ℕ) (hf : 1 ≤ f) (n : ℕ) (l : List Char) :
    l.length + 1 ≤ (Nat.toDigitsCore 10 f n l).length := by
  cases f with
  | zero => omega
  | succ f =>
    simp only [Nat.toDigitsCore]
    by_cases h0 : n / 10 = 0
    · rw [if_pos h0]
      simp
    · rw [if_neg h0]
      have := toDigitsCore_length_mono f (n / 10) (Nat.digitChar (n % 10) :: l)
      simpa using this

theorem toDigitsCore_length_lower (k : ℕ) :
    ∀ (f n : ℕ) (l : List Char), 10 ^ k ≤ n → k + 1 ≤ f →
      k + 1 + l.length ≤ (Nat.toDigitsCore 10 f n l).length := by
  induction k with
  | zero =>
    intro f n l hn hf
    have := toDigitsCore_length_succ f hf n l
    omega
  | succ k ih =>
    intro f n l hn hf
    cases f with
    | zero => omega
    | succ f =>
      have hdiv : 10 ^ k ≤ n / 10 := by
        rw [Nat.le_div_iff_mul_le (by norm_num)]
        calc 10 ^ k * 10 = 10 ^ (k + 1) := (pow_succ 10 k).symm
          _ ≤ n := hn
      have hpk : 0 < 10 ^ k := pow_pos (by norm_num) k
      have h0 : ¬ n / 10 = 0 := by omega
      simp only [Nat.toDigitsCore]
      rw [if_neg h0]
      have := ih f (n / 10) (Nat.digitChar (n % 10) :: l) hdiv (by omega)
      simp only [List.length_cons] at this
      omega

theorem natRepr_toList (n : ℕ) : (toString n).toList = Nat.toDigitsCore 10 (n + 1) n [] := rfl

theorem natRepr_all_digits (n : ℕ) : ∀ c ∈ (toString n).toList, c.isDigit = true := by
  rw [natRepr_toList]
  exact toDigitsCore_all_digits (n + 1) n [] (by simp)

theorem natRepr_length_ge (n : ℕ) (h : 100000 ≤ n) : 6 ≤ (toString n).toList.length := by
  rw [natRepr_toList]
  have h5 : 10 ^ 5 ≤ n := by norm_num at h ⊢; omega
  have := toDigitsCore_length_lower 5 (n + 1) n [] h5 (by omega)
  simpa using this

theorem lastChars_length (k : ℕ) (s : String) (h : k ≤ s.toList.length) :
    (lastChars k s).toList.length = k := by
  rw [lastChars, toList_asString, List.length_drop]
  omega

theorem lastChars_digits (k : ℕ) (s : String)
    (hd : ∀ c ∈ s.toList, c.isDigit = true) :
    ∀ c ∈ (lastChars k s).toList, c.isDigit = true := by
  intro c hc
  rw [lastChars, toList_asString] at hc
  exact hd c (List.mem_of_mem_drop hc)

theorem intercalate_three_dash (x : String) :
    String.intercalate "-" ["LVP", "GRA", x] = "LVP-GRA-" ++ x := by
  simp [String.intercalate, String.intercalate.go]

theorem intercalate_single_dash (x : String) : String.intercalate "-" [x] = x := by
  simp [String.intercalate, String.intercalate.go]

theorem intercalate_dash_triple (a b c : String) :
    String.intercalate "-" [a, b, c] = a ++ "-" ++ b ++ "-" ++ c := by
  simp [String.intercalate, String.intercalate.go, String.append_assoc]

theorem intercalate_dash_pair (a b : String) :
    String.intercalate "-" [a, b] = a ++ "-" ++ b := by
  simp [String.intercalate, String.intercalate.go]

/-- Claim C7: when extraction produced no ticket_reference, reference
synthesis joins with a dash an origin token (the origin_code value
when present — whatever origin_station holds — else the first three
characters of origin_station uppercased, else nothing), a destination
token built by the same rule from destination_code and
destination_station, and the last six digits of the Unix timestamp.
With origin_code LVP and destination_code GRA the reference is
"LVP-GRA-" followed by the six-character all-digit timestamp suffix;
with all four station keys absent it is just the suffix.  The general
token rule is stated for every presence combination: both codes,
both station fallbacks, the two mixed cases, and each one-sided case.
The reference gets confidence 0.5 and the is_reference_generated flag
is set to true. -/
theorem c7_reference_synthesis (data : List (String × Value)) (conf : List (String × ℚ))
    (now : ℕ) (hnow : 100000 ≤ now)
    (hmiss : dmem data "ticket_reference" = false) :
    (dget data "origin_code" = some (.str "LVP") →
      dget data "destination_code" = some (.str "GRA") →
      dget (finalizeData (data, conf) now).1 "ticket_reference" =
        some (.str ("LVP-GRA-" ++ lastChars 6 (toString now)))) ∧
    (dget data "origin_code" = none → dget data "origin_station" = none →
      dget data "destination_code" = none → dget data "destination_station" = none →
      dget (finalizeData (data, conf) now).1 "ticket_reference" =
        some (.str (lastChars 6 (toString now)))) ∧
    (lastChars 6 (toString now)).toList.length = 6 ∧
    (∀ c ∈ (lastChars 6 (toString now)).toList, c.isDigit = true) ∧
    dget (finalizeData (data, conf) now).2 "ticket_reference" = some 0.5 ∧
    dget (finalizeData (data, conf) now).1 "is_reference_generated" = some (.bool true) ∧
    (∀ o d : String, dget data "origin_code" = some (.str o) →
      dget data "destination_code" = some (.str d) →
      dget (finalizeData (data, conf) now).1 "ticket_reference" =
        some (.str (o ++ "-" ++ d ++ "-" ++ lastChars 6 (toString now)))) ∧
    (∀ s t : String, dget data "origin_code" = none →
      dget data "origin_station" = some (.str s) →
      dget data "destination_code" = none →
      dget data "destination_station" = some (.str t) →
      dget (finalizeData (data, conf) now).1 "ticket_reference" =
        some (.str (pyUpper (s.take 3) ++ "-" ++ pyUpper (t.take 3) ++ "-" ++
          lastChars 6 (toString now)))) ∧
    (∀ o t : String, dget data "origin_code" = some (.str o) →
      dget data "destination_code" = none →
      dget data "destination_station" = some (.str t) →
      dget (finalizeData (data, conf) now).1 "ticket_reference" =
        some (.str (o ++ "-" ++ pyUpper (t.take 3) ++ "-" ++ lastChars 6 (toString now)))) ∧
    (∀ s d : String, dget data "origin_code" = none →
      dget data "origin_station" = some (.str s) →
      dget data "destination_code" = some (.str d) →
      dget (finalizeData (data, conf) now).1 "ticket_reference" =
        some (.str (pyUpper (s.take 3) ++ "-" ++ d ++ "-" ++ lastChars 6 (toString now)))) ∧
    (∀ o : String, dget data "origin_code" = some (.str o) →
      dget data "destination_code" = none →
      dget data "destination_station" = none →
      dget (finalizeData (data, conf) now).1 "ticket_reference" =
        some (.str (o ++ "-" ++ lastChars 6 (toString now)))) ∧
    (∀ s : String, dget data "origin_code" = none →
      dget data "origin_station" = some (.str s) →
      dget data "destination_code" = none →
      dget data "destination_station" = none →
      dget (finalizeData (data, conf) now).1 "ticket_reference" =
        some (.str (pyUpper (s.take 3) ++ "-" ++ lastChars 6 (toString now)))) ∧
    (∀ d : String, dget data "origin_code" = none →
      dget data "origin_station" = none →
      dget data "destination_code" = some (.str d) →
      dget (finalizeData (data, conf) now).1 "ticket_reference" =
        some (.str (d ++ "-" ++ lastChars 6 (toString now)))) ∧
    (∀ t : String, dget data "origin_code" = none →
      dget data "origin_station" = none →
      dget data "destination_code" = none →
      dget data "destination_station" = some (.str t) →
      dget (finalizeData (data, conf) now).1 "ticket_reference" =
        some (.str (pyUpper (t.take 3) ++ "-" ++ lastChars 6 (toString now)))) := by
  have hfin : finalizeData (data, conf) now = generateTicketReference data conf now := by
    simp [finalizeData, hmiss]
  have hne : ("ticket_reference" : String) ≠ "is_reference_generated" := by decide
  refine ⟨?_, ?_, ?_, ?_, ?_, ?_, ?_, ?_, ?_, ?_, ?_, ?_, ?_, ?_⟩
  · intro h1 h2
    rw [hfin]
    simp only [generateTicketReference, h1, h2, Value.asString, List.singleton_append,
      List.cons_append, List.nil_append]
    rw [intercalate_three_dash]
    rw [dget_dset_ne _ _ _ _ hne, dget_dset_self]
  · intro h1 h2 h3 h4
    rw [hfin]
    simp only [generateTicketReference, h1, h2, h3, h4]
    rw [List.nil_append, List.nil_append, intercalate_single_dash]
    rw [dget_dset_ne _ _ _ _ hne, dget_dset_self]
  · exact lastChars_length 6 (toString now) (natRepr_length_ge now hnow)
  · exact lastChars_digits 6 (toString now) (natRepr_all_digits now)
  · rw [hfin]
    simp only [generateTicketReference]
    exact dget_dset_self conf "ticket_reference" 0.5
  · rw [hfin]
    simp only [generateTicketReference]
    exact dget_dset_self _ "is_reference_generated" (Value.bool true)
  · intro o d h1 h2
    rw [hfin]
    simp only [generateTicketReference, h1, h2, Value.asString, List.singleton_append,
      List.cons_append, List.nil_append]
    rw [intercalate_dash_triple]
    rw [dget_dset_ne _ _ _ _ hne, dget_dset_self]
  · intro s t h1 h2 h3 h4
    rw [hfin]
    simp only [generateTicketReference, h1, h2, h3, h4, Value.asString, List.singleton_append,
      List.cons_append, List.nil_append]
    rw [intercalate_dash_triple]
    rw [dget_dset_ne _ _ _ _ hne, dget_dset_self]
  · intro o t h1 h2 h3
    rw [hfin]
    simp only [generateTicketReference, h1, h2, h3, Value.asString, List.singleton_append,
      List.cons_append, List.nil_append]
    rw [intercalate_dash_triple]
    rw [dget_dset_ne _ _ _ _ hne, dget_dset_self]
  · intro s d h1 h2 h3
    rw [hfin]
    simp only [generateTicketReference, h1, h2, h3, Value.asString, List.singleton_append,
      List.cons_append, List.nil_append]
    rw [intercalate_dash_triple]
    rw [dget_dset_ne _ _ _ _ hne, dget_dset_self]
  · intro o h1 h2 h3
    rw [hfin]
    simp only [generateTicketReference, h1, h2, h3, Value.asString, List.singleton_append,
      List.cons_append, List.nil_append]
    rw [intercalate_dash_pair]
    rw [dget_dset_ne _ _ _ _ hne, dget_dset_self]
  · intro s h1 h2 h3 h4
    rw [hfin]
    simp only [generateTicketReference, h1, h2, h3, h4, Value.asString, List.singleton_append,
      List.cons_append, List.nil_append]
    rw [intercalate_dash_pair]
    rw [dget_dset_ne _ _ _ _ hne, dget_dset_self]
  · intro d h1 h2 h3
    rw [hfin]
    simp only [generateTicketReference, h1, h2, h3, Value.asString, List.singleton_append,
      List.cons_append, List.nil_append]
    rw [intercalate_dash_pair]
    rw [dget_dset_ne _ _ _ _ hne, dget_dset_self]
  · intro t h1 h2 h3 h4
    rw [hfin]
    simp only [generateTicketReference, h1, h2, h3, h4, Value.asString, List.singleton_append,
      List.cons_append, List.nil_append]
    rw [intercalate_dash_pair]
    rw [dget_dset_ne _ _ _ _ hne, dget_dset_self]

def c7Data : List (String × Value) :=
  [("origin_code", .str "LVP"), ("destination_code", .str "GRA")]

/-- Witness for C7 with origin_code LVP, destination_code GRA and
timestamp 1700000000 (suffix "000000"); the token-rule clauses are
instantiated at the same completed extraction state. -/
theorem c7_reference_synthesis_witness :
    (dget c7Data "origin_code" = some (.str "LVP") →
      dget c7Data "destination_code" = some (.str "GRA") →
      dget (finalizeData (c7Data, ([] : List (String × ℚ))) 1700000000).1 "ticket_reference" =
        some (.str ("LVP-GRA-" ++ lastChars 6 (toString 1700000000)))) ∧
    (dget c7Data "origin_code" = none → dget c7Data "origin_station" = none →
      dget c7Data "destination_code" = none → dget c7Data "destination_station" = none →
      dget (finalizeData (c7Data, ([] : List (String × ℚ))) 1700000000).1 "ticket_reference" =
        some (.str (lastChars 6 (toString 1700000000)))) ∧
    (lastChars 6 (toString 1700000000)).toList.length = 6 ∧
    (∀ c ∈ (lastChars 6 (toString 1700000000)).toList, c.isDigit = true) ∧
    dget (finalizeData (c7Data, ([] : List (String × ℚ))) 1700000000).2 "ticket_reference" =
      some 0.5 ∧
    dget (finalizeData (c7Data, ([] : List (String × ℚ))) 1700000000).1 "is_reference_generated" =
      some (.bool true) ∧
    (∀ o d : String, dget c7Data "origin_code" = some (.str o) →
      dget c7Data "destination_code" = some (.str d) →
      dget (finalizeData (c7Data, ([] : List (String × ℚ))) 1700000000).1 "ticket_reference" =
        some (.str (o ++ "-" ++ d ++ "-" ++ lastChars 6 (toString 1700000000)))) ∧
    (∀ s t : String, dget c7Data "origin_code" = none →
      dget c7Data "origin_station" = some (.str s) →
      dget c7Data "destination_code" = none →
      dget c7Data "destination_station" = some (.str t) →
      dget (finalizeData (c7Data, ([] : List (String × ℚ))) 1700000000).1 "ticket_reference" =
        some (.str (pyUpper (s.take 3) ++ "-" ++ pyUpper (t.take 3) ++ "-" ++
          lastChars 6 (toString 1700000000)))) ∧
    (∀ o t : String, dget c7Data "origin_code" = some (.str o) →
      dget c7Data "destination_code" = none →
      dget c7Data "destination_station" = some (.str t) →
      dget (finalizeData (c7Data, ([] : List (String × ℚ))) 1700000000).1 "ticket_reference" =
        some (.str (o ++ "-" ++ pyUpper (t.take 3) ++ "-" ++ lastChars 6 (toString 1700000000)))) ∧
    (∀ s d : String, dget c7Data "origin_code" = none →
      dget c7Data "origin_station" = some (.str s) →
      dget c7Data "destination_code" = some (.str d) →
      dget (finalizeData (c7Data, ([] : List (String × ℚ))) 1700000000).1 "ticket_reference" =
        some (.str (pyUpper (s.take 3) ++ "-" ++ d ++ "-" ++ lastChars 6 (toString 1700000000)))) ∧
    (∀ o : String, dget c7Data "origin_code" = some (.str o) →
      dget c7Data "destination_code" = none →
      dget c7Data "destination_station" = none →
      dget (finalizeData (c7Data, ([] : List (String × ℚ))) 1700000000).1 "ticket_reference" =
        some (.str (o ++ "-" ++ lastChars 6 (toString 1700000000)))) ∧
    (∀ s : String, dget c7Data "origin_code" = none →
      dget c7Data "origin_station" = some (.str s) →
      dget c7Data "destination_code" = none →
      dget c7Data "destination_station" = none →
      dget (finalizeData (c7Data, ([] : List (String × ℚ))) 1700000000).1 "ticket_reference" =
        some (.str (pyUpper (s.take 3) ++ "-" ++ lastChars 6 (toString 1700000000)))) ∧
    (∀ d : String, dget c7Data "origin_code" = none →
      dget c7Data "origin_station" = none →
      dget c7Data "destination_code" = some (.str d) →
      dget (finalizeData (c7Data, ([] : List (String × ℚ))) 1700000000).1 "ticket_reference" =
        some (.str (d ++ "-" ++ lastChars 6 (toString 1700000000)))) ∧
    (∀ t : String, dget c7Data "origin_code" = none →
      dget c7Data "origin_station" = none →
      dget c7Data "destination_code" = none →
      dget c7Data "destination_station" = some (.str t) →
      dget (finalizeData (c7Data, ([] : List (String × ℚ))) 1700000000).1 "ticket_reference" =
        some (.str (pyUpper (t.take 3) ++ "-" ++ lastChars 6 (toString 1700000000)))) :=
  c7_reference_synthesis c7Data [] 1700000000 (by norm_num) (by decide)

/-! ## Claim C1

The key/confidence invariant maintained by extraction and by the
post-extraction reference synthesis: every confidence key is a data
key, every data key other than the synthesized flag
`is_reference_generated` is a confidence key, and every confidence
value lies in [0, 1]. -/

def keyInvariant (dc : List (String × Value) × List (String × ℚ)) : Prop :=
  (∀ k, dmem dc.2 k = true → dmem dc.1 k = true) ∧
  (∀ k, dmem dc.1 k = true → k = "is_reference_generated" ∨ dmem dc.2 k = true) ∧
  (∀ k q, dget dc.2 k = some q → 0 ≤ q ∧ q ≤ 1)

theorem keyInvariant_dset {dc : List (String × Value) × List (String × ℚ)}
    (h : keyInvariant dc) (n : String) (v : Value) (q : ℚ) (hq : 0 ≤ q ∧ q ≤ 1) :
    keyInvariant (dset dc.1 n v, dset dc.2 n q) := by
  obtain ⟨hA, hB, hC⟩ := h
  refine ⟨?_, ?_, ?_⟩
  · intro k hk
    rw [dmem_dset] at hk ⊢
    rcases hk with hk | hk
    · exact Or.inl hk
    · exact Or.inr (hA k hk)
  · intro k hk
    rw [dmem_dset] at hk
    rcases hk with hk | hk
    · right
      rw [dmem_dset]
      exact Or.inl hk
    · rcases hB k hk with h | h
      · exact Or.inl h
      · right
        rw [dmem_dset]
        exact Or.inr h
  · intro k q' hk
    by_cases he : k = n
    · subst he
      rw [dget_dset_self] at hk
      cases hk
      exact hq
    · rw [dget_dset_ne _ _ _ _ he] at hk
      exact hC k q' hk

theorem processField_keyInvariant (env : ExtractEnv)
    (st : List (String × Value) × List (String × ℚ)) (f : TicketField)
    (h : keyInvariant st) : keyInvariant (processField env st f) := by
  cases hft : fieldText env f with
  | none => simpa [processField, hft] using h
  | some text =>
    cases htry : tryPatterns env.search f.patterns text with
    | some v =>
      have hinv := keyInvariant_dset h f.name (.str v) 1.0 (by norm_num)
      simpa [processField, hft, htry, dmem_dset_self] using hinv
    | none =>
      by_cases hguard : dmem st.1 f.name = false ∧ text ≠ ""
      · cases hfz : fuzzyTry text f.patterns with
        | some v =>
          have hinv := keyInvariant_dset h f.name (.str v) 0.6 (by norm_num)
          simpa [processField, hft, htry, hguard, hfz] using hinv
        | none => simpa [processField, hft, htry, hguard, hfz] using h
      · simpa [processField, hft, htry, hguard] using h

theorem foldl_keyInvariant (env : ExtractEnv) (config : List TicketField) :
    ∀ st, keyInvariant st → keyInvariant (config.foldl (processField env) st) := by
  induction config with
  | nil => intro st h; exact h
  | cons f rest ih =>
    intro st h
    exact ih _ (processField_keyInvariant env st f h)

theorem extractTicketDetails_keyInvariant (env : ExtractEnv) (config : List TicketField) :
    keyInvariant (extractTicketDetails env config) := by
  apply foldl_keyInvariant
  refine ⟨?_, ?_, ?_⟩
  · intro k hk
    simp [dmem, dget] at hk
  · intro k hk
    simp [dmem, dget] at hk
  · intro k q hk
    simp [dget] at hk

theorem finalizeData_keyInvariant (dc : List (String × Value) × List (String × ℚ))
    (now : ℕ) (h : keyInvariant dc) : keyInvariant (finalizeData dc now) := by
  obtain ⟨data, conf⟩ := dc
  obtain ⟨hA, hB, hC⟩ := h
  unfold finalizeData
  split
  · exact ⟨hA, hB, hC⟩
  · simp only [generateTicketReference]
    refine ⟨?_, ?_, ?_⟩
    · intro k hk
      rw [dmem_dset] at hk
      rw [dmem_dset, dmem_dset]
      rcases hk with hk | hk
      · exact Or.inr (Or.inl hk)
      · exact Or.inr (Or.inr (hA k hk))
    · intro k hk
      rw [dmem_dset] at hk
      rcases hk with hk | hk
      · exact Or.inl hk
      · rw [dmem_dset] at hk
        rcases hk with hk | hk
        · right
          rw [dmem_dset]
          exact Or.inl hk
        · rcases hB k hk with h | h
          · exact Or.inl h
          · right
            rw [dmem_dset]
            exact Or.inr h
    · intro k q hk
      by_cases he : k = "ticket_reference"
      · subst he
        rw [dget_dset_self] at hk
        cases hk
        norm_num
      · rw [dget_dset_ne _ _ _ _ he] at hk
        exact hC k q hk

/-- Inversion of a successful scan: the reported configuration name is
the one the selector chose, and the returned data/confidence pair is
the finalized extraction over the effective field list. -/
theorem scan_ok_inversion (env : ScanEnv) (path : String)
    (cfgs : List (String × List TicketField)) (r : ScanResult)
    (h : scan env path cfgs = Except.ok r) :
    r.configuration_used = selectConfiguration env.configOcrText ∧
    ∃ cfg, dget cfgs (effectiveConfigName cfgs (selectConfiguration env.configOcrText)) =
        some cfg ∧
      (r.data, r.confidence) = finalizeData (extractTicketDetails env.extract cfg) env.now := by
  unfold scan at h
  split at h
  · simp at h
  · cases hdet : determineTicketType env.measurements env.debug with
    | error e =>
      rw [hdet] at h
      simp at h
    | ok ttype =>
      rw [hdet] at h
      dsimp only at h
      cases hcfg : dget cfgs (effectiveConfigName cfgs (selectConfiguration env.configOcrText)) with
      | none =>
        rw [hcfg] at h
        simp at h
      | some cfg =>
        rw [hcfg] at h
        dsimp only at h
        simp only [Except.ok.injEq] at h
        subst h
        exact ⟨rfl, cfg, rfl, rfl⟩

/-- Claim C1 (amended): for every completed scan, every key of the
confidence mapping is a key of the extracted-data mapping and every
confidence value lies in [0, 1]; conversely every key of the
extracted-data mapping except `is_reference_generated` — the flag
written by reference synthesis without a confidence entry — is a key
of the confidence mapping.  The exact if-and-only-if of the original
claim fails after reference synthesis (see the counterexample). -/
theorem c1_confidence_key_invariant (env : ScanEnv) (path : String)
    (cfgs : List (String × List TicketField)) (r : ScanResult)
    (h : scan env path cfgs = Except.ok r) :
    (∀ k, dmem r.confidence k = true → dmem r.data k = true) ∧
    (∀ k, dmem r.data k = true →
      k = "is_reference_generated" ∨ dmem r.confidence k = true) ∧
    (∀ k q, dget r.confidence k = some q → 0 ≤ q ∧ q ≤ 1) := by
  obtain ⟨-, cfg, -, hdc⟩ := scan_ok_inversion env path cfgs r h
  have hinv := finalizeData_keyInvariant (extractTicketDetails env.extract cfg) env.now
    (extractTicketDetails_keyInvariant env.extract cfg)
  rw [← hdc] at hinv
  exact hinv

def c1ExtractEnv : ExtractEnv :=
  { width := 0, height := 0, search := fun _ _ => none, ocrFull := "",
    ocrRegion := fun _ _ _ _ => "" }

def c1Env : ScanEnv :=
  { imageLoaded := true,
    measurements := { orangeFrac := 0, textureMeasure := 0, linesFound := true,
                      angleVariation := 0, illuminationVar := 0, isColor := true,
                      qrDetected := false, ocrText := "" },
    debug := false, configOcrText := "", extract := c1ExtractEnv, now := 1700000123 }

def c1Result : ScanResult :=
  { ticket_type := "digital", configuration_used := "generic_digital",
    data := [("ticket_reference", .str "000123"), ("is_reference_generated", .bool true)],
    confidence := [("ticket_reference", 0.5)] }

/-- Claim C1, counterexample: a completed scan in which reference
synthesis ran.  The key `is_reference_generated` appears in the
extracted-data mapping but not in the confidence mapping, so a field
name does not appear in the confidence mapping if and only if it
appears in the extracted-data mapping. -/
theorem c1_counterexample :
    scan c1Env "ticket.jpg" getDefaultConfigurations = Except.ok c1Result ∧
    dmem c1Result.data "is_reference_generated" = true ∧
    dmem c1Result.confidence "is_reference_generated" = false := by
  refine ⟨?_, by decide, by decide⟩
  with_unfolding_all rfl

/-- Witness for C1 on the concrete completed scan of the
counterexample environment. -/
theorem c1_confidence_key_invariant_witness :
    (∀ k, dmem c1Result.confidence k = true → dmem c1Result.data k = true) ∧
    (∀ k, dmem c1Result.data k = true →
      k = "is_reference_generated" ∨ dmem c1Result.confidence k = true) ∧
    (∀ k q, dget c1Result.confidence k = some q → 0 ≤ q ∧ q ≤ 1) :=
  c1_confidence_key_invariant c1Env "ticket.jpg" getDefaultConfigurations c1Result
    (by with_unfolding_all rfl)

/-! ## Claim C10 -/

/-- Claim C10 (amended): the configuration_used field reports the name
the selector chose; the field list actually used for extraction is
that of the selected name when the name is present in the
configurations table, and the generic field list otherwise.  In the
default tables the selector names lner, tfl and avanti carry keywords
but have no field list, so for them extraction silently uses the
generic field list while the returned record still reports the
selected name (so configuration_used does not always name the field
list actually used — see the counterexample). -/
theorem c10_configuration_reporting (env : ScanEnv) (path : String) (r : ScanResult)
    (h : scan env path getDefaultConfigurations = Except.ok r) :
    r.configuration_used = selectConfiguration env.configOcrText ∧
    (∀ cfg, dget getDefaultConfigurations
        (effectiveConfigName getDefaultConfigurations (selectConfiguration env.configOcrText)) =
          some cfg →
      (r.data, r.confidence) = finalizeData (extractTicketDetails env.extract cfg) env.now) ∧
    effectiveConfigName getDefaultConfigurations "lner" = "generic" ∧
    effectiveConfigName getDefaultConfigurations "tfl" = "generic" ∧
    effectiveConfigName getDefaultConfigurations "avanti" = "generic" ∧
    dget configTable "lner" = some ["lner", "london north eastern"] ∧
    dget configTable "tfl" = some ["transport for london", "tfl", "oyster"] ∧
    dget configTable "avanti" = some ["avanti", "west coast"] := by
  obtain ⟨hcu, cfg, hcfg, hdc⟩ := scan_ok_inversion env path getDefaultConfigurations r h
  refine ⟨hcu, ?_, by decide, by decide, by decide, by decide, by decide, by decide⟩
  intro cfg' hcfg'
  rw [hcfg] at hcfg'
  cases hcfg'
  exact hdc

def c10Env : ScanEnv :=
  { c1Env with configOcrText := "oyster card" }

def c10Result : ScanResult :=
  { c1Result with configuration_used := "tfl" }

/-- Claim C10, counterexample: OCR text containing "oyster" selects
"tfl"; the returned record reports configuration_used = "tfl"
although no configuration named "tfl" exists in the default table
(extraction fell back to "generic"), so configuration_used does not
name the configuration whose field list was actually used. -/
theorem c10_counterexample :
    scan c10Env "ticket.jpg" getDefaultConfigurations = Except.ok c10Result ∧
    c10Result.configuration_used = "tfl" ∧
    dmem getDefaultConfigurations "tfl" = false ∧
    effectiveConfigName getDefaultConfigurations "tfl" = "generic" := by
  refine ⟨?_, by decide, by decide, by decide⟩
  with_unfolding_all rfl

/-- Witness for C10 on the concrete scan with "oyster" OCR text. -/
theorem c10_configuration_reporting_witness :
    c10Result.configuration_used = selectConfiguration c10Env.configOcrText ∧
    (∀ cfg, dget getDefaultConfigurations
        (effectiveConfigName getDefaultConfigurations (selectConfiguration c10Env.configOcrText)) =
          some cfg →
      (c10Result.data, c10Result.confidence) =
        finalizeData (extractTicketDetails c10Env.extract cfg) c10Env.now) ∧
    effectiveConfigName getDefaultConfigurations "lner" = "generic" ∧
    effectiveConfigName getDefaultConfigurations "tfl" = "generic" ∧
    effectiveConfigName getDefaultConfigurations "avanti" = "generic" ∧
    dget configTable "lner" = some ["lner", "london north eastern"] ∧
    dget configTable "tfl" = some ["transport for london", "tfl", "oyster"] ∧
    dget configTable "avanti" = some ["avanti", "west coast"] :=
  c10_configuration_reporting c10Env "ticket.jpg" c10Result (by with_unfolding_all rfl)

end TicketScan
